import Mathlib

/-!
Verification development for the scan4care backend.

The repository contains four iterations of the same Express server:
`src/server.js` and the three unnamed variants `part_000`, `part_001`,
`part_002`.  Each one exposes `POST /analyze`: a multer middleware stores
the multipart file fields `image` and `selfie` into a temp directory, the
handler validates presence of both files and the consent field, sends
best-effort Telegram notifications, invokes the Gemini inference client on
the problem image, answers with JSON, and removes the temporary files.

The embedding below models, per variant and faithfully to the source:
  - the multer configuration (dest, fileSize limit, image/* fileFilter),
  - the Telegram senders with their environment gates and try/catch,
  - analyzeImage with its per-variant error handling
    (raw propagation / rethrow of a fixed message / API-key guard),
  - the route handler with its exact control flow (validation order,
    cleanup placement: inline + catch, or finally).

External effects are made explicit: the disk is a list of stored paths,
outbound calls are collected in a trace, and the nondeterminism of the
environment (NODE_ENV, credentials, fetch failures, readFileSync failure,
inference outcome, wall clock) is an `Env` record quantified over in the
theorems.  Exceptions are `Except` values threaded exactly where the
source can throw.
-/

namespace Scan4Care

/-! ## String literals of the source -/

def consentTrue : String := "true"
def unknownLit : String := "Unknown"
def unknownDeviceLit : String := "Unknown device"
def defaultPromptLit : String := "Analyze this image"
def bothImagesRequiredMsg : String := "Both images are required"
def imagesMissingMsg : String := "Images missing"
def consentRequiredMsg : String := "Consent required"
def serverErrorMsg : String := "Server error"
def aiFailedMsg : String := "AI failed"
def aiAnalysisFailedMsg : String := "AI analysis failed"
def aiPlaceholderMsg : String := "AI analysis failed. Please try again later."
def geminiKeyMissingMsg : String := "GEMINI_API_KEY missing"
def readErrMsg : String := "ENOENT: no such file or directory"
def telegramMsgErrLog : String := "Telegram message error: fetch failed"
def telegramPhotoErrLog : String := "Telegram photo error: fetch failed"
def telegramErrLogGuarded : String := "Telegram error: fetch failed"
def problemCaption : String := "🌾 Problem Image"
def selfieCaption : String := "👤 Auto Selfie"
def imagePrefixLit : String := "image/"
def emptyLit : String := ""
def commaChar : Char := ','

/-! ## Requests, environment, effects -/

/-- A file field of the inbound multipart body, before multer stores it. -/
structure RawFile where
  mimetype : String
  size : Nat
  deriving DecidableEq, Repr

/-- The inbound HTTP request as the middleware and handler consume it:
the two optional file fields, the form fields `consent`, `location`,
`prompt`, and the headers / socket data the handlers read. -/
structure RawReq where
  image : Option RawFile
  selfie : Option RawFile
  consent : Option String
  location : Option String
  prompt : Option String
  userAgent : Option String
  xff : Option String
  remoteAddr : String
  deriving DecidableEq, Repr

/-- The process environment and the outcome of the external world during
one request: `NODE_ENV === "production"`, the three credentials, whether
each outbound fetch fails, whether `fs.readFileSync` on the stored image
fails, the outcome of the Gemini `generateContent` network call, and the
wall-clock string `new Date().toLocaleString()` would produce. -/
structure Env where
  nodeEnvIsProduction : Bool
  telegramBotToken : Option String
  telegramChatId : Option String
  geminiApiKey : Option String
  msgFetchFails : Bool
  photoFetchFails : Bool
  readFileFails : Bool
  inference : Except String String
  now : String

/-- One outbound call observed during request handling.  `analyzeEntry`
records an invocation of the `analyzeImage` function (the inference
client); `geminiGenerate` records the actual network call to the
inference backend issued inside it. -/
inductive Call where
  | telegramMessage (text : String)
  | telegramPhoto (path : String) (caption : String)
  | analyzeEntry (path : String) (mimetype : String)
  | geminiGenerate (path : String) (mimetype : String)
  deriving DecidableEq, Repr

/-- JSON body of a handler response: `{success:true, response}` or
`{success:false, error}`. -/
inductive Body where
  | okBody (response : String)
  | errBody (error : String)
  deriving DecidableEq, Repr

/-- An HTTP response: status code plus JSON body. -/
structure Resp where
  status : Nat
  body : Body
  deriving DecidableEq, Repr

/-- Result of running the middleware plus handler on one request:
the response (`none` when the multer middleware aborted the request with
its own error, so the handler never ran), the temp files left on disk,
and the trace of outbound calls made by the handler body. -/
structure HOut where
  response : Option Resp
  disk : List String
  trace : List Call
  deriving DecidableEq, Repr

/-- JavaScript `a || b` on an optional string field: `undefined` and the
empty string are falsy and select the default. -/
def jsOr (v : Option String) (dflt : String) : String :=
  match v with
  | none => dflt
  | some s => if s = emptyLit then dflt else s

def locationOf (r : RawReq) : String := jsOr r.location unknownLit

def deviceOf (r : RawReq) : String := jsOr r.userAgent unknownDeviceLit

def promptOf (r : RawReq) : String := jsOr r.prompt defaultPromptLit

/-- `req.headers["x-forwarded-for"]?.split(",")[0] || req.socket.remoteAddress`
from part_001: the text before the first comma of the header when the
header exists and that text is nonempty, else the socket address. -/
def clientIp (r : RawReq) : String :=
  match r.xff with
  | none => r.remoteAddr
  | some s =>
    let first := String.mk (s.data.takeWhile (fun c => c != commaChar))
    if first = emptyLit then r.remoteAddr else first

/-! ## Multer middleware -/

/-- One multer configuration: the optional `limits.fileSize`, whether the
`fileFilter` rejecting non-`image/*` mimetypes is installed, and the
(unique, per-field) temp path the store would assign under `dest`. -/
structure MulterCfg where
  sizeLimit : Option Nat
  imageFilter : Bool
  imgPath : String
  selPath : String
  deriving DecidableEq, Repr

/-- `file.mimetype.startsWith("image/")`. -/
def mimeIsImage (m : String) : Bool := imagePrefixLit.data.isPrefixOf m.data

/-- Whether one incoming file passes the configured fileFilter and
fileSize limit. -/
def fileOk (cfg : MulterCfg) (f : RawFile) : Bool :=
  (!cfg.imageFilter || mimeIsImage f.mimetype) &&
    (match cfg.sizeLimit with
     | none => true
     | some l => decide (f.size ≤ l))

/-- A file multer has written: its temp path and the recorded mimetype. -/
structure StoredFile where
  path : String
  mimetype : String
  deriving DecidableEq, Repr

/-- Outcome of `upload.fields([{name:"image"},{name:"selfie"}])`:
either the request is aborted with a multer error (fileFilter callback
error or LIMIT_FILE_SIZE; multer removes files it already stored and the
route handler never runs), or each present field has been written to the
temp dir and `req.files` carries the handles. -/
inductive MulterRes where
  | rejected
  | ok (img : Option StoredFile) (sel : Option StoredFile) (disk : List String)
  deriving DecidableEq, Repr

/-- Run the multer middleware on the two declared fields.  Each present
file is checked against the filter/limit and, when accepted, written to
its temp path; any failing file aborts the whole request. -/
def runMulter (cfg : MulterCfg) (r : RawReq) : MulterRes :=
  match r.image with
  | some f =>
    if fileOk cfg f then
      match r.selfie with
      | some g =>
        if fileOk cfg g then
          MulterRes.ok (some { path := cfg.imgPath, mimetype := f.mimetype })
            (some { path := cfg.selPath, mimetype := g.mimetype })
            [cfg.imgPath, cfg.selPath]
        else MulterRes.rejected
      | none =>
        MulterRes.ok (some { path := cfg.imgPath, mimetype := f.mimetype }) none [cfg.imgPath]
    else MulterRes.rejected
  | none =>
    match r.selfie with
    | some g =>
      if fileOk cfg g then
        MulterRes.ok none (some { path := cfg.selPath, mimetype := g.mimetype }) [cfg.selPath]
      else MulterRes.rejected
    | none => MulterRes.ok none none []

/-- server.js: dest "uploads", 5MB limit, image filter. -/
def serverCfg : MulterCfg :=
  { sizeLimit := some (5 * 1024 * 1024), imageFilter := true,
    imgPath := "uploads/img-tmp", selPath := "uploads/selfie-tmp" }

/-- part_000: dest "uploads", 2MB limit, image filter. -/
def part000Cfg : MulterCfg :=
  { sizeLimit := some (2 * 1024 * 1024), imageFilter := true,
    imgPath := "uploads/img-tmp", selPath := "uploads/selfie-tmp" }

/-- part_001: dest "uploads/", no limits, no fileFilter. -/
def part001Cfg : MulterCfg :=
  { sizeLimit := none, imageFilter := false,
    imgPath := "uploads/img-tmp", selPath := "uploads/selfie-tmp" }

/-- part_002: dest "/tmp/uploads", 2MB limit, image filter. -/
def part002Cfg : MulterCfg :=
  { sizeLimit := some (2 * 1024 * 1024), imageFilter := true,
    imgPath := "/tmp/uploads/img-tmp", selPath := "/tmp/uploads/selfie-tmp" }

/-! ## Telegram senders

Each sender returns the outbound calls it attempted and the console.error
lines it logged.  The return type has no `Except`: the try/catch inside
each source function swallows every fetch failure, so nothing propagates
to the caller. -/

/-- server.js / part_000 `sendTelegramMessage`: no-op unless NODE_ENV is
production; the fetch is attempted and a failure is only logged. -/
def sendTelegramMessageProd (env : Env) (text : String) : List Call × List String :=
  if !env.nodeEnvIsProduction then ([], [])
  else if env.msgFetchFails then ([Call.telegramMessage text], [telegramMsgErrLog])
  else ([Call.telegramMessage text], [])

/-- server.js / part_000 `sendTelegramPhoto`: same gate and catch. -/
def sendTelegramPhotoProd (env : Env) (path caption : String) : List Call × List String :=
  if !env.nodeEnvIsProduction then ([], [])
  else if env.photoFetchFails then ([Call.telegramPhoto path caption], [telegramPhotoErrLog])
  else ([Call.telegramPhoto path caption], [])

/-- part_001 `sendTelegramMessage`: no environment gate at all; the fetch
is always attempted and a failure is only logged. -/
def sendTelegramMessageUngated (env : Env) (text : String) : List Call × List String :=
  if env.msgFetchFails then ([Call.telegramMessage text], [telegramMsgErrLog])
  else ([Call.telegramMessage text], [])

/-- part_001 `sendTelegramPhoto`: no gate, catch only. -/
def sendTelegramPhotoUngated (env : Env) (path caption : String) : List Call × List String :=
  if env.photoFetchFails then ([Call.telegramPhoto path caption], [telegramPhotoErrLog])
  else ([Call.telegramPhoto path caption], [])

/-- part_002 `sendTelegramMessage`: returns early unless NODE_ENV is
production and both TELEGRAM_BOT_TOKEN and TELEGRAM_CHAT_ID are set;
then the fetch is attempted and a failure is only logged. -/
def sendTelegramMessageGuarded (env : Env) (text : String) : List Call × List String :=
  if !env.nodeEnvIsProduction then ([], [])
  else
    match env.telegramBotToken with
    | none => ([], [])
    | some _ =>
      match env.telegramChatId with
      | none => ([], [])
      | some _ =>
        if env.msgFetchFails then ([Call.telegramMessage text], [telegramErrLogGuarded])
        else ([Call.telegramMessage text], [])

/-! ## analyzeImage variants

Each returns the outcome the caller observes (an `Except` because the
source function can throw) together with the calls it made.
`fs.readFileSync` sits before any try block in every variant, so a read
failure always propagates raw. -/

/-- server.js / part_001 `analyzeImage`: no credential guard and no
try/catch — a `generateContent` failure propagates with its raw message. -/
def analyzeImageRaw (env : Env) (path mimetype _userPrompt : String) :
    Except String String × List Call :=
  if env.readFileFails then (Except.error readErrMsg, [Call.analyzeEntry path mimetype])
  else
    match env.inference with
    | Except.ok t =>
      (Except.ok t, [Call.analyzeEntry path mimetype, Call.geminiGenerate path mimetype])
    | Except.error _ =>
      (env.inference, [Call.analyzeEntry path mimetype, Call.geminiGenerate path mimetype])

/-- part_000 `analyzeImage`: the `generateContent` call is wrapped in
try/catch and rethrown as the fixed message "AI failed". -/
def analyzeImageCaught (env : Env) (path mimetype _userPrompt : String) :
    Except String String × List Call :=
  if env.readFileFails then (Except.error readErrMsg, [Call.analyzeEntry path mimetype])
  else
    match env.inference with
    | Except.ok t =>
      (Except.ok t, [Call.analyzeEntry path mimetype, Call.geminiGenerate path mimetype])
    | Except.error _ =>
      (Except.error aiFailedMsg,
        [Call.analyzeEntry path mimetype, Call.geminiGenerate path mimetype])

/-- part_002 `analyzeImage`: throws "GEMINI_API_KEY missing" before any
network call when the key is absent; otherwise like part_000 but the
rethrown message is "AI analysis failed". -/
def analyzeImageLazyInit (env : Env) (path mimetype _userPrompt : String) :
    Except String String × List Call :=
  match env.geminiApiKey with
  | none => (Except.error geminiKeyMissingMsg, [Call.analyzeEntry path mimetype])
  | some _ =>
    if env.readFileFails then (Except.error readErrMsg, [Call.analyzeEntry path mimetype])
    else
      match env.inference with
      | Except.ok t =>
        (Except.ok t, [Call.analyzeEntry path mimetype, Call.geminiGenerate path mimetype])
      | Except.error _ =>
        (Except.error aiAnalysisFailedMsg,
          [Call.analyzeEntry path mimetype, Call.geminiGenerate path mimetype])

/-! ## Telegram message texts -/

def srvSeg0 : String := "🛡️ Scan4Care Request\n\n📍 Location: "
def srvSeg1 : String := "\n📱 Device: "
def srvSeg2 : String := "\n📝 Prompt: "
def srvSeg3 : String := "\n"

/-- server.js message template. -/
def msgTextServer (r : RawReq) : String :=
  srvSeg0 ++ locationOf r ++ srvSeg1 ++ deviceOf r ++ srvSeg2 ++ promptOf r ++ srvSeg3

def p000Seg0 : String := "🛡️ Scan4Care Request\n📍 "
def p000Seg1 : String := "\n📱 "
def p000Seg2 : String := "\n📝 "

/-- part_000 message template. -/
def msgTextPart000 (r : RawReq) : String :=
  p000Seg0 ++ locationOf r ++ p000Seg1 ++ deviceOf r ++ p000Seg2 ++ promptOf r

def p001Seg0 : String := "🛡️ Scan4Care Request\n\n📍 Location: "
def p001Seg1 : String := "\n🌐 IP: "
def p001Seg2 : String := "\n📱 Device: "
def p001Seg3 : String := "\n🕒 "
def p001Seg4 : String := "\n📝 Prompt: "

/-- part_001 message template: location, client ip, device, timestamp,
prompt. -/
def msgTextPart001 (location ip device now prompt : String) : String :=
  p001Seg0 ++ location ++ p001Seg1 ++ ip ++ p001Seg2 ++ device ++ p001Seg3 ++ now ++
    p001Seg4 ++ prompt

def p002Seg0 : String := "🛡️ Scan4Care Request\n📍 Location: "
def p002Seg1 : String := "\n📱 Device: "
def p002Seg2 : String := "\n📝 Prompt: "

/-- part_002 message template. -/
def msgTextPart002 (r : RawReq) : String :=
  p002Seg0 ++ locationOf r ++ p002Seg1 ++ deviceOf r ++ p002Seg2 ++ promptOf r

/-! ## Disk operations -/

/-- `if (p && fs.existsSync(p)) fs.unlinkSync(p)`. -/
def unlinkIfExists (d : List String) (p : String) : List String :=
  if p ∈ d then d.erase p else d

/-! ## The four route handlers -/

/-- server.js `POST /analyze`: validation, prod-gated Telegram calls,
analyzeImage without inner catch; on success the two unlinks are inline
in the try; the catch logs, unlinks whatever exists, and answers 500
with the fixed body "Server error". -/
def handlerServer (env : Env) (r : RawReq) : HOut :=
  match runMulter serverCfg r with
  | MulterRes.rejected => { response := none, disk := [], trace := [] }
  | MulterRes.ok imgF selF d =>
    match imgF, selF with
    | some pi, some ps =>
      if r.consent = some consentTrue then
        let m := sendTelegramMessageProd env (msgTextServer r)
        let p1 := sendTelegramPhotoProd env pi.path problemCaption
        let p2 := sendTelegramPhotoProd env ps.path selfieCaption
        let pre := m.1 ++ p1.1 ++ p2.1
        match analyzeImageRaw env pi.path pi.mimetype (promptOf r) with
        | (Except.ok text, t) =>
          { response := some { status := 200, body := Body.okBody text },
            disk := (d.erase pi.path).erase ps.path,
            trace := pre ++ t }
        | (Except.error _, t) =>
          { response := some { status := 500, body := Body.errBody serverErrorMsg },
            disk := unlinkIfExists (unlinkIfExists d pi.path) ps.path,
            trace := pre ++ t }
      else
        { response := some { status := 403, body := Body.errBody consentRequiredMsg },
          disk := d, trace := [] }
    | _, _ =>
      { response := some { status := 400, body := Body.errBody bothImagesRequiredMsg },
        disk := d, trace := [] }

/-- part_000 `POST /analyze`: like server.js but no unlink in the try and
none in the catch; a finally block unlinks both paths when they were
assigned and still exist, on every exit. -/
def handlerPart000 (env : Env) (r : RawReq) : HOut :=
  match runMulter part000Cfg r with
  | MulterRes.rejected => { response := none, disk := [], trace := [] }
  | MulterRes.ok imgF selF d =>
    match imgF, selF with
    | some pi, some ps =>
      if r.consent = some consentTrue then
        let m := sendTelegramMessageProd env (msgTextPart000 r)
        let p1 := sendTelegramPhotoProd env pi.path problemCaption
        let p2 := sendTelegramPhotoProd env ps.path selfieCaption
        let pre := m.1 ++ p1.1 ++ p2.1
        match analyzeImageCaught env pi.path pi.mimetype (promptOf r) with
        | (Except.ok text, t) =>
          { response := some { status := 200, body := Body.okBody text },
            disk := unlinkIfExists (unlinkIfExists d pi.path) ps.path,
            trace := pre ++ t }
        | (Except.error _, t) =>
          { response := some { status := 500, body := Body.errBody serverErrorMsg },
            disk := unlinkIfExists (unlinkIfExists d pi.path) ps.path,
            trace := pre ++ t }
      else
        { response := some { status := 403, body := Body.errBody consentRequiredMsg },
          disk := d, trace := [] }
    | _, _ =>
      { response := some { status := 400, body := Body.errBody bothImagesRequiredMsg },
        disk := d, trace := [] }

/-- part_001 `POST /analyze`: ungated Telegram calls with ip and
timestamp in the text; analyzeImage wrapped in an inner try/catch that
degrades an inference failure to a placeholder string (still 200);
unlinks are inline after the inner try; the outer catch would unlink and
answer 500 but no modelled failure reaches it. -/
def handlerPart001 (env : Env) (r : RawReq) : HOut :=
  match runMulter part001Cfg r with
  | MulterRes.rejected => { response := none, disk := [], trace := [] }
  | MulterRes.ok imgF selF d =>
    match imgF, selF with
    | some pi, some ps =>
      if r.consent = some consentTrue then
        let m := sendTelegramMessageUngated env
          (msgTextPart001 (locationOf r) (clientIp r) (deviceOf r) env.now (promptOf r))
        let p1 := sendTelegramPhotoUngated env pi.path problemCaption
        let p2 := sendTelegramPhotoUngated env ps.path selfieCaption
        let pre := m.1 ++ p1.1 ++ p2.1
        match analyzeImageRaw env pi.path pi.mimetype (promptOf r) with
        | (Except.ok text, t) =>
          { response := some { status := 200, body := Body.okBody text },
            disk := (d.erase pi.path).erase ps.path,
            trace := pre ++ t }
        | (Except.error _, t) =>
          { response := some { status := 200, body := Body.okBody aiPlaceholderMsg },
            disk := (d.erase pi.path).erase ps.path,
            trace := pre ++ t }
      else
        { response := some { status := 403, body := Body.errBody consentRequiredMsg },
          disk := d, trace := [] }
    | _, _ =>
      { response := some { status := 400, body := Body.errBody imagesMissingMsg },
        disk := d, trace := [] }

/-- part_002 `POST /analyze`: credential-guarded analyzeImage, only a
text notification (extra-guarded sender, no photos); the catch answers
500 with `err.message` as the error body; a finally block unlinks both
paths when assigned and existing. -/
def handlerPart002 (env : Env) (r : RawReq) : HOut :=
  match runMulter part002Cfg r with
  | MulterRes.rejected => { response := none, disk := [], trace := [] }
  | MulterRes.ok imgF selF d =>
    match imgF, selF with
    | some pi, some ps =>
      if r.consent = some consentTrue then
        let m := sendTelegramMessageGuarded env (msgTextPart002 r)
        match analyzeImageLazyInit env pi.path pi.mimetype (promptOf r) with
        | (Except.ok text, t) =>
          { response := some { status := 200, body := Body.okBody text },
            disk := unlinkIfExists (unlinkIfExists d pi.path) ps.path,
            trace := m.1 ++ t }
        | (Except.error e, t) =>
          { response := some { status := 500, body := Body.errBody e },
            disk := unlinkIfExists (unlinkIfExists d pi.path) ps.path,
            trace := m.1 ++ t }
      else
        { response := some { status := 403, body := Body.errBody consentRequiredMsg },
          disk := d, trace := [] }
    | _, _ =>
      { response := some { status := 400, body := Body.errBody bothImagesRequiredMsg },
        disk := d, trace := [] }

/-! ## Trace predicates -/

/-- Recognises an invocation of the inference client (analyzeImage). -/
def isAnalyzeCall : Call → Bool
  | Call.analyzeEntry _ _ => true
  | _ => false

/-- Recognises a network call to the Gemini backend. -/
def isGeminiCall : Call → Bool
  | Call.geminiGenerate _ _ => true
  | _ => false

/-! ## Concrete inputs used by witnesses and counterexamples -/

def jpegMime : String := "image/jpeg"
def pdfMime : String := "application/pdf"
def localAddr : String := "127.0.0.1"
def keyLit : String := "test-key"
def okText : String := "advice text"
def nowLit : String := "11/10/2026, 12:00:00"
def netFailMsg : String := "ECONNRESET"

/-- A small valid jpeg upload. -/
def fiW : RawFile := { mimetype := jpegMime, size := 1000 }

/-- An accepted request: both images, consent "true". -/
def rAccepted : RawReq :=
  { image := some fiW, selfie := some fiW, consent := some consentTrue,
    location := none, prompt := none, userAgent := none, xff := none,
    remoteAddr := localAddr }

/-- A quiet environment: non-production, no telegram credentials, a
gemini key, all external calls succeeding. -/
def envBase : Env :=
  { nodeEnvIsProduction := false, telegramBotToken := none, telegramChatId := none,
    geminiApiKey := some keyLit, msgFetchFails := false, photoFetchFails := false,
    readFileFails := false, inference := Except.ok okText, now := nowLit }

/-! ## Shared lemmas -/

/-- When both fields are present and pass the filter and limit, the
middleware stores both files and hands their handles to the handler. -/
lemma runMulter_accepted (cfg : MulterCfg) (r : RawReq) (fi fs : RawFile)
    (hi : r.image = some fi) (hs : r.selfie = some fs)
    (hfi : fileOk cfg fi = true) (hfs : fileOk cfg fs = true) :
    runMulter cfg r =
      MulterRes.ok (some { path := cfg.imgPath, mimetype := fi.mimetype })
        (some { path := cfg.selPath, mimetype := fs.mimetype })
        [cfg.imgPath, cfg.selPath] := by
  unfold runMulter
  simp [hi, hs, hfi, hfs]

/-- part_001 configures no fileFilter and no limits: every file passes. -/
lemma fileOk_part001 (f : RawFile) : fileOk part001Cfg f = true := rfl

/-- part_002 applies the same filter and limit as part_000. -/
lemma fileOk_part002_eq (f : RawFile) : fileOk part002Cfg f = fileOk part000Cfg f := rfl

/-- Claim C1: for every accepted request (both image fields present and
stored, consent equal to "true"), after the handler has produced its
response neither stored temp file remains on disk, on every exit path of
the model: inference success, inference network failure, and the
unexpected readFileSync exception — in all four variants (server.js
cleans inline and in the catch, part_000 and part_002 in a finally,
part_001 after its inner catch). -/
theorem c1_cleanup_every_exit_path (env : Env) (r : RawReq) (fi fs : RawFile)
    (hi : r.image = some fi) (hs : r.selfie = some fs)
    (hfi2 : fileOk part000Cfg fi = true) (hfs2 : fileOk part000Cfg fs = true)
    (hfi5 : fileOk serverCfg fi = true) (hfs5 : fileOk serverCfg fs = true)
    (hc : r.consent = some consentTrue) :
    ((handlerServer env r).response.isSome = true ∧
      serverCfg.imgPath ∉ (handlerServer env r).disk ∧
      serverCfg.selPath ∉ (handlerServer env r).disk) ∧
    ((handlerPart000 env r).response.isSome = true ∧
      part000Cfg.imgPath ∉ (handlerPart000 env r).disk ∧
      part000Cfg.selPath ∉ (handlerPart000 env r).disk) ∧
    ((handlerPart001 env r).response.isSome = true ∧
      part001Cfg.imgPath ∉ (handlerPart001 env r).disk ∧
      part001Cfg.selPath ∉ (handlerPart001 env r).disk) ∧
    ((handlerPart002 env r).response.isSome = true ∧
      part002Cfg.imgPath ∉ (handlerPart002 env r).disk ∧
      part002Cfg.selPath ∉ (handlerPart002 env r).disk) := by
  refine ⟨?_, ?_, ?_, ?_⟩
  · unfold handlerServer
    rw [runMulter_accepted serverCfg r fi fs hi hs hfi5 hfs5, hc]
    cases hR : env.readFileFails <;> cases hI : env.inference <;>
      simp [analyzeImageRaw, hR, hI, unlinkIfExists, serverCfg]
  · unfold handlerPart000
    rw [runMulter_accepted part000Cfg r fi fs hi hs hfi2 hfs2, hc]
    cases hR : env.readFileFails <;> cases hI : env.inference <;>
      simp [analyzeImageCaught, hR, hI, unlinkIfExists, part000Cfg]
  · unfold handlerPart001
    rw [runMulter_accepted part001Cfg r fi fs hi hs (fileOk_part001 fi) (fileOk_part001 fs), hc]
    cases hR : env.readFileFails <;> cases hI : env.inference <;>
      simp [analyzeImageRaw, hR, hI, unlinkIfExists, part001Cfg]
  · unfold handlerPart002
    rw [runMulter_accepted part002Cfg r fi fs hi hs
      ((fileOk_part002_eq fi).trans hfi2) ((fileOk_part002_eq fs).trans hfs2), hc]
    cases hK : env.geminiApiKey <;> cases hR : env.readFileFails <;> cases hI : env.inference <;>
      simp [analyzeImageLazyInit, hK, hR, hI, unlinkIfExists, part002Cfg]

/-- Witness for C1 at a concrete accepted request. -/
theorem c1_cleanup_every_exit_path_witness :
    fileOk serverCfg fiW = true ∧
    serverCfg.imgPath ∉ (handlerServer envBase rAccepted).disk ∧
    serverCfg.selPath ∉ (handlerServer envBase rAccepted).disk := by
  have h := c1_cleanup_every_exit_path envBase rAccepted fiW fiW rfl rfl
    (by decide) (by decide) (by decide) (by decide) rfl
  exact ⟨by decide, h.1.2.1, h.1.2.2⟩

/-- A request carrying only the problem image, no selfie field. -/
def rOneImage : RawReq :=
  { image := some fiW, selfie := none, consent := some consentTrue,
    location := none, prompt := none, userAgent := none, xff := none,
    remoteAddr := localAddr }

/-- A request with both images but no consent field. -/
def rNoConsent : RawReq :=
  { image := some fiW, selfie := some fiW, consent := none,
    location := none, prompt := none, userAgent := none, xff := none,
    remoteAddr := localAddr }

/-- An empty request: no files, no consent. -/
def rNoImages : RawReq :=
  { image := none, selfie := none, consent := none,
    location := none, prompt := none, userAgent := none, xff := none,
    remoteAddr := localAddr }

/-- Counterexample to Claim C2: a request carrying exactly one image
field is rejected with 400, yet the middleware has already written that
file to the temp store and it remains on disk after the response — the
handler body returns before the cleanup paths are armed. -/
theorem c2_counterexample :
    (handlerServer envBase rOneImage).response =
      some { status := 400, body := Body.errBody bothImagesRequiredMsg } ∧
    (handlerServer envBase rOneImage).disk = [serverCfg.imgPath] ∧
    serverCfg.imgPath ∈ (handlerServer envBase rOneImage).disk := by
  refine ⟨by decide, by decide, by decide⟩

/-- Claim C2 as amended: only a request missing BOTH image fields causes
no file write; when exactly one image field is present the stored file
survives the 400 response, and when both are present but consent is not
"true" both stored files survive the 403 response (server.js variant;
the other variants guard their cleanup on handler-local paths that are
still null at these returns, with the same effect). -/
theorem c2_reject_paths_file_state (env : Env) (r : RawReq) :
    (r.image = none → r.selfie = none →
      (handlerServer env r).response =
        some { status := 400, body := Body.errBody bothImagesRequiredMsg } ∧
      (handlerServer env r).disk = [] ∧ (handlerServer env r).trace = []) ∧
    (∀ fi, r.image = some fi → fileOk serverCfg fi = true → r.selfie = none →
      (handlerServer env r).response =
        some { status := 400, body := Body.errBody bothImagesRequiredMsg } ∧
      (handlerServer env r).disk = [serverCfg.imgPath] ∧
      (handlerServer env r).trace = []) ∧
    (∀ fi fs, r.image = some fi → fileOk serverCfg fi = true →
      r.selfie = some fs → fileOk serverCfg fs = true →
      r.consent ≠ some consentTrue →
      (handlerServer env r).response =
        some { status := 403, body := Body.errBody consentRequiredMsg } ∧
      (handlerServer env r).disk = [serverCfg.imgPath, serverCfg.selPath] ∧
      (handlerServer env r).trace = []) := by
  refine ⟨?_, ?_, ?_⟩
  · intro hi hs
    unfold handlerServer runMulter
    simp [hi, hs]
  · intro fi hi hfi hs
    unfold handlerServer runMulter
    simp [hi, hs, hfi]
  · intro fi fs hi hfi hs hfs hc
    unfold handlerServer
    rw [runMulter_accepted serverCfg r fi fs hi hs hfi hfs]
    simp [hc]

/-- Witness for the amended C2 at the concrete consent-less request. -/
theorem c2_reject_paths_file_state_witness :
    rNoConsent.consent ≠ some consentTrue ∧
    (handlerServer envBase rNoConsent).response =
      some { status := 403, body := Body.errBody consentRequiredMsg } ∧
    (handlerServer envBase rNoConsent).disk = [serverCfg.imgPath, serverCfg.selPath] := by
  have h := (c2_reject_paths_file_state envBase rNoConsent).2.2 fiW fiW rfl
    (by decide) rfl (by decide) (by decide)
  exact ⟨by decide, h.1, h.2.1⟩

/-- Counterexample to Claim C3: a request whose consent field is absent
but which is also missing the image fields is answered 400, not 403 —
the image check precedes the consent check in every variant. -/
theorem c3_counterexample :
    rNoImages.consent ≠ some consentTrue ∧
    (handlerServer envBase rNoImages).response =
      some { status := 400, body := Body.errBody bothImagesRequiredMsg } ∧
    (handlerServer envBase rNoImages).response ≠
      some { status := 403, body := Body.errBody consentRequiredMsg } := by
  refine ⟨by decide, by decide, by decide⟩

/-- Claim C3 as amended: for every request with both image fields
present and stored whose consent differs from the literal "true"
(including absent), all four variants answer 403 with
`{success:false, error:"Consent required"}` and make no notifier and no
inference call (the trace is empty). -/
theorem c3_consent_gate (env : Env) (r : RawReq) (fi fs : RawFile)
    (hi : r.image = some fi) (hs : r.selfie = some fs)
    (hfi2 : fileOk part000Cfg fi = true) (hfs2 : fileOk part000Cfg fs = true)
    (hfi5 : fileOk serverCfg fi = true) (hfs5 : fileOk serverCfg fs = true)
    (hc : r.consent ≠ some consentTrue) :
    ((handlerServer env r).response =
        some { status := 403, body := Body.errBody consentRequiredMsg } ∧
      (handlerServer env r).trace = []) ∧
    ((handlerPart000 env r).response =
        some { status := 403, body := Body.errBody consentRequiredMsg } ∧
      (handlerPart000 env r).trace = []) ∧
    ((handlerPart001 env r).response =
        some { status := 403, body := Body.errBody consentRequiredMsg } ∧
      (handlerPart001 env r).trace = []) ∧
    ((handlerPart002 env r).response =
        some { status := 403, body := Body.errBody consentRequiredMsg } ∧
      (handlerPart002 env r).trace = []) := by
  refine ⟨?_, ?_, ?_, ?_⟩
  · unfold handlerServer
    rw [runMulter_accepted serverCfg r fi fs hi hs hfi5 hfs5]
    simp [hc]
  · unfold handlerPart000
    rw [runMulter_accepted part000Cfg r fi fs hi hs hfi2 hfs2]
    simp [hc]
  · unfold handlerPart001
    rw [runMulter_accepted part001Cfg r fi fs hi hs (fileOk_part001 fi) (fileOk_part001 fs)]
    simp [hc]
  · unfold handlerPart002
    rw [runMulter_accepted part002Cfg r fi fs hi hs
      ((fileOk_part002_eq fi).trans hfi2) ((fileOk_part002_eq fs).trans hfs2)]
    simp [hc]

/-- Witness for the amended C3 at the concrete consent-less request. -/
theorem c3_consent_gate_witness :
    rNoConsent.consent ≠ some consentTrue ∧
    (handlerPart001 envBase rNoConsent).response =
      some { status := 403, body := Body.errBody consentRequiredMsg } ∧
    (handlerPart001 envBase rNoConsent).trace = [] := by
  have h := c3_consent_gate envBase rNoConsent fiW fiW rfl rfl
    (by decide) (by decide) (by decide) (by decide) (by decide)
  exact ⟨by decide, h.2.2.1.1, h.2.2.1.2⟩

/-- Claim C4: notification failure never escapes the senders, so the
handler response cannot observe it: two environments that agree on
everything the inference path reads (the key, the readFileSync outcome,
the generateContent outcome) but differ arbitrarily in NODE_ENV,
Telegram credentials and fetch failures yield the same response and the
same final disk in all four variants.  The senders themselves return
plain pairs (calls, log) with no error channel: their try/catch swallows
every fetch failure. -/
theorem c4_notifier_noninterference (e₁ e₂ : Env) (r : RawReq)
    (hk : e₁.geminiApiKey = e₂.geminiApiKey)
    (hr : e₁.readFileFails = e₂.readFileFails)
    (hi : e₁.inference = e₂.inference) :
    ((handlerServer e₁ r).response = (handlerServer e₂ r).response ∧
      (handlerServer e₁ r).disk = (handlerServer e₂ r).disk) ∧
    ((handlerPart000 e₁ r).response = (handlerPart000 e₂ r).response ∧
      (handlerPart000 e₁ r).disk = (handlerPart000 e₂ r).disk) ∧
    ((handlerPart001 e₁ r).response = (handlerPart001 e₂ r).response ∧
      (handlerPart001 e₁ r).disk = (handlerPart001 e₂ r).disk) ∧
    ((handlerPart002 e₁ r).response = (handlerPart002 e₂ r).response ∧
      (handlerPart002 e₁ r).disk = (handlerPart002 e₂ r).disk) := by
  have hRaw : ∀ p m pr, analyzeImageRaw e₁ p m pr = analyzeImageRaw e₂ p m pr := by
    intro p m pr; unfold analyzeImageRaw; rw [hr, hi]
  have hCaught : ∀ p m pr, analyzeImageCaught e₁ p m pr = analyzeImageCaught e₂ p m pr := by
    intro p m pr; unfold analyzeImageCaught; rw [hr, hi]
  have hLazy : ∀ p m pr, analyzeImageLazyInit e₁ p m pr = analyzeImageLazyInit e₂ p m pr := by
    intro p m pr; unfold analyzeImageLazyInit; rw [hk, hr, hi]
  refine ⟨?_, ?_, ?_, ?_⟩
  · unfold handlerServer
    cases hM : runMulter serverCfg r with
    | rejected => exact ⟨rfl, rfl⟩
    | ok imgF selF d =>
      cases imgF with
      | none => cases selF <;> exact ⟨rfl, rfl⟩
      | some pi =>
        cases selF with
        | none => exact ⟨rfl, rfl⟩
        | some ps =>
          by_cases hc : r.consent = some consentTrue
          · simp only [if_pos hc, hRaw]
            rcases hA : analyzeImageRaw e₂ pi.path pi.mimetype (promptOf r) with ⟨res, t⟩
            cases res <;> constructor <;> rfl
          · simp only [if_neg hc]; constructor <;> first | rfl | trivial
  · unfold handlerPart000
    cases hM : runMulter part000Cfg r with
    | rejected => exact ⟨rfl, rfl⟩
    | ok imgF selF d =>
      cases imgF with
      | none => cases selF <;> exact ⟨rfl, rfl⟩
      | some pi =>
        cases selF with
        | none => exact ⟨rfl, rfl⟩
        | some ps =>
          by_cases hc : r.consent = some consentTrue
          · simp only [if_pos hc, hCaught]
            rcases hA : analyzeImageCaught e₂ pi.path pi.mimetype (promptOf r) with ⟨res, t⟩
            cases res <;> constructor <;> rfl
          · simp only [if_neg hc]; constructor <;> first | rfl | trivial
  · unfold handlerPart001
    cases hM : runMulter part001Cfg r with
    | rejected => exact ⟨rfl, rfl⟩
    | ok imgF selF d =>
      cases imgF with
      | none => cases selF <;> exact ⟨rfl, rfl⟩
      | some pi =>
        cases selF with
        | none => exact ⟨rfl, rfl⟩
        | some ps =>
          by_cases hc : r.consent = some consentTrue
          · simp only [if_pos hc, hRaw]
            rcases hA : analyzeImageRaw e₂ pi.path pi.mimetype (promptOf r) with ⟨res, t⟩
            cases res <;> constructor <;> rfl
          · simp only [if_neg hc]; constructor <;> first | rfl | trivial
  · unfold handlerPart002
    cases hM : runMulter part002Cfg r with
    | rejected => exact ⟨rfl, rfl⟩
    | ok imgF selF d =>
      cases imgF with
      | none => cases selF <;> exact ⟨rfl, rfl⟩
      | some pi =>
        cases selF with
        | none => exact ⟨rfl, rfl⟩
        | some ps =>
          by_cases hc : r.consent = some consentTrue
          · simp only [if_pos hc, hLazy]
            rcases hA : analyzeImageLazyInit e₂ pi.path pi.mimetype (promptOf r) with ⟨res, t⟩
            cases res <;> constructor <;> rfl
          · simp only [if_neg hc]; constructor <;> first | rfl | trivial

/-- An environment in production with telegram credentials where both
telegram fetches fail but inference succeeds. -/
def envTelegramFails : Env :=
  { nodeEnvIsProduction := true, telegramBotToken := some keyLit,
    telegramChatId := some keyLit, geminiApiKey := some keyLit,
    msgFetchFails := true, photoFetchFails := true,
    readFileFails := false, inference := Except.ok okText, now := nowLit }

/-- Like envTelegramFails but with all telegram fetches succeeding. -/
def envTelegramOk : Env :=
  { nodeEnvIsProduction := true, telegramBotToken := some keyLit,
    telegramChatId := some keyLit, geminiApiKey := some keyLit,
    msgFetchFails := false, photoFetchFails := false,
    readFileFails := false, inference := Except.ok okText, now := nowLit }

/-- Witness for C4: failing both telegram fetches leaves the concrete
accepted request with the same response and disk as when they succeed. -/
theorem c4_notifier_noninterference_witness :
    envTelegramFails.inference = envTelegramOk.inference ∧
    (handlerServer envTelegramFails rAccepted).response =
      (handlerServer envTelegramOk rAccepted).response ∧
    (handlerServer envTelegramFails rAccepted).disk =
      (handlerServer envTelegramOk rAccepted).disk := by
  have h := c4_notifier_noninterference envTelegramFails envTelegramOk rAccepted rfl rfl rfl
  exact ⟨rfl, h.1.1, h.1.2⟩

/-- Recognises an inference-client invocation whose image argument is
the given path. -/
def isAnalyzeAt (p : String) : Call → Bool
  | Call.analyzeEntry q _ => q == p
  | _ => false

/-- A non-image upload. -/
def fiPdf : RawFile := { mimetype := pdfMime, size := 1000 }

/-- A request whose both files are non-image uploads, with consent. -/
def rPdf : RawReq :=
  { image := some fiPdf, selfie := some fiPdf, consent := some consentTrue,
    location := none, prompt := none, userAgent := none, xff := none,
    remoteAddr := localAddr }

/-- Counterexample to Claim C5: the part_001 variant configures multer
with no fileFilter and no limits, so a non-image upload is not rejected
at all — the request is answered 200 and the inference backend is
called on the stored non-image file. -/
theorem c5_counterexample :
    mimeIsImage fiPdf.mimetype = false ∧
    (handlerPart001 envBase rPdf).response =
      some { status := 200, body := Body.okBody okText } ∧
    (handlerPart001 envBase rPdf).trace.countP isGeminiCall = 1 := by
  refine ⟨by decide, by decide, by decide⟩

/-- Claim C5 as amended: in the variants that configure a fileFilter and
a fileSize limit (server.js at 5 MB, part_000 and part_002 at 2 MB) a
non-image or oversized problem upload aborts the request inside the
middleware — the handler never runs, so no notification and no
inference call is attempted and the error response is the framework
default rather than a handler-built 400/422; the part_001 variant
performs no upload validation and such an upload proceeds through
notification and inference. -/
theorem c5_upload_validation (env : Env) (r : RawReq) :
    (∀ fi, r.image = some fi → fileOk serverCfg fi = false →
      (handlerServer env r).response = none ∧ (handlerServer env r).trace = []) ∧
    (∀ fi, r.image = some fi → fileOk part000Cfg fi = false →
      (handlerPart000 env r).response = none ∧ (handlerPart000 env r).trace = []) ∧
    (∀ fi, r.image = some fi → fileOk part002Cfg fi = false →
      (handlerPart002 env r).response = none ∧ (handlerPart002 env r).trace = []) ∧
    (∀ fi fs, r.image = some fi → r.selfie = some fs → r.consent = some consentTrue →
      (handlerPart001 env r).trace.countP isAnalyzeCall = 1) := by
  refine ⟨?_, ?_, ?_, ?_⟩
  · intro fi hi hfi
    unfold handlerServer runMulter
    simp [hi, hfi]
  · intro fi hi hfi
    unfold handlerPart000 runMulter
    simp [hi, hfi]
  · intro fi hi hfi
    unfold handlerPart002 runMulter
    simp [hi, hfi]
  · intro fi fs hi hs hc
    unfold handlerPart001
    rw [runMulter_accepted part001Cfg r fi fs hi hs (fileOk_part001 fi) (fileOk_part001 fs), hc]
    cases hM : env.msgFetchFails <;> cases hF : env.photoFetchFails <;>
      cases hR : env.readFileFails <;> cases hI : env.inference <;>
      simp [sendTelegramMessageUngated, sendTelegramPhotoUngated, analyzeImageRaw,
        hM, hF, hR, hI, isAnalyzeCall]

/-- Witness for the amended C5: the non-image upload aborts the
server.js middleware before any call. -/
theorem c5_upload_validation_witness :
    fileOk serverCfg fiPdf = false ∧
    (handlerServer envBase rPdf).response = none ∧
    (handlerServer envBase rPdf).trace = [] := by
  have h := (c5_upload_validation envBase rPdf).1 fiPdf rfl (by decide)
  exact ⟨by decide, h.1, h.2⟩

/-- Claim C6: for every accepted request, the inference client is
invoked exactly once, its image argument is the problem image path and
never the selfie path, and at most one network call to the inference
backend happens (no retry) — in the server.js and part_001 variants the
claim cites (the behaviour holds on success, network failure and read
failure alike). -/
theorem c6_inference_once_problem_image_only (env : Env) (r : RawReq) (fi fs : RawFile)
    (hi : r.image = some fi) (hs : r.selfie = some fs)
    (hfi5 : fileOk serverCfg fi = true) (hfs5 : fileOk serverCfg fs = true)
    (hc : r.consent = some consentTrue) :
    ((handlerServer env r).trace.countP isAnalyzeCall = 1 ∧
      (handlerServer env r).trace.countP (isAnalyzeAt serverCfg.imgPath) = 1 ∧
      (handlerServer env r).trace.countP (isAnalyzeAt serverCfg.selPath) = 0 ∧
      (handlerServer env r).trace.countP isGeminiCall ≤ 1) ∧
    ((handlerPart001 env r).trace.countP isAnalyzeCall = 1 ∧
      (handlerPart001 env r).trace.countP (isAnalyzeAt part001Cfg.imgPath) = 1 ∧
      (handlerPart001 env r).trace.countP (isAnalyzeAt part001Cfg.selPath) = 0 ∧
      (handlerPart001 env r).trace.countP isGeminiCall ≤ 1) := by
  constructor
  · unfold handlerServer
    rw [runMulter_accepted serverCfg r fi fs hi hs hfi5 hfs5, hc]
    cases hP : env.nodeEnvIsProduction <;> cases hM : env.msgFetchFails <;>
      cases hF : env.photoFetchFails <;> cases hR : env.readFileFails <;>
      cases hI : env.inference <;>
      simp [sendTelegramMessageProd, sendTelegramPhotoProd, analyzeImageRaw,
        hP, hM, hF, hR, hI, isAnalyzeCall, isAnalyzeAt, isGeminiCall, serverCfg]
  · unfold handlerPart001
    rw [runMulter_accepted part001Cfg r fi fs hi hs (fileOk_part001 fi) (fileOk_part001 fs), hc]
    cases hM : env.msgFetchFails <;> cases hF : env.photoFetchFails <;>
      cases hR : env.readFileFails <;> cases hI : env.inference <;>
      simp [sendTelegramMessageUngated, sendTelegramPhotoUngated, analyzeImageRaw,
        hM, hF, hR, hI, isAnalyzeCall, isAnalyzeAt, isGeminiCall, part001Cfg]

/-- Witness for C6 at the concrete accepted request. -/
theorem c6_inference_once_problem_image_only_witness :
    rAccepted.consent = some consentTrue ∧
    (handlerServer envBase rAccepted).trace.countP isAnalyzeCall = 1 ∧
    (handlerServer envBase rAccepted).trace.countP (isAnalyzeAt serverCfg.selPath) = 0 := by
  have h := c6_inference_once_problem_image_only envBase rAccepted fiW fiW rfl rfl
    (by decide) (by decide) rfl
  exact ⟨rfl, h.1.1, h.1.2.2.1⟩

/-- An environment in which the Gemini network call fails. -/
def envInfFail : Env := { envBase with inference := Except.error netFailMsg }

/-- An environment with no GEMINI_API_KEY. -/
def envNoKey : Env := { envBase with geminiApiKey := none }

/-- Claim C7: when the inference backend fails on an accepted request,
part_000 answers 500 with `{success:false, error:"Server error"}` and
part_001 answers 200 with the placeholder string — the two observed
policies — and in both variants neither temp file remains on disk. -/
theorem c7_inference_failure_policy (env : Env) (r : RawReq) (fi fs : RawFile) (em : String)
    (hi : r.image = some fi) (hs : r.selfie = some fs)
    (hfi2 : fileOk part000Cfg fi = true) (hfs2 : fileOk part000Cfg fs = true)
    (hc : r.consent = some consentTrue)
    (hinf : env.inference = Except.error em) (hrd : env.readFileFails = false) :
    ((handlerPart000 env r).response =
        some { status := 500, body := Body.errBody serverErrorMsg } ∧
      part000Cfg.imgPath ∉ (handlerPart000 env r).disk ∧
      part000Cfg.selPath ∉ (handlerPart000 env r).disk) ∧
    ((handlerPart001 env r).response =
        some { status := 200, body := Body.okBody aiPlaceholderMsg } ∧
      part001Cfg.imgPath ∉ (handlerPart001 env r).disk ∧
      part001Cfg.selPath ∉ (handlerPart001 env r).disk) := by
  constructor
  · unfold handlerPart000
    rw [runMulter_accepted part000Cfg r fi fs hi hs hfi2 hfs2, hc]
    simp [analyzeImageCaught, hrd, hinf, unlinkIfExists, part000Cfg]
  · unfold handlerPart001
    rw [runMulter_accepted part001Cfg r fi fs hi hs (fileOk_part001 fi) (fileOk_part001 fs), hc]
    simp [analyzeImageRaw, hrd, hinf, unlinkIfExists, part001Cfg]

/-- Witness for C7 at a concrete failing-inference environment. -/
theorem c7_inference_failure_policy_witness :
    envInfFail.inference = Except.error netFailMsg ∧
    (handlerPart000 envInfFail rAccepted).response =
      some { status := 500, body := Body.errBody serverErrorMsg } ∧
    (handlerPart001 envInfFail rAccepted).response =
      some { status := 200, body := Body.okBody aiPlaceholderMsg } := by
  have h := c7_inference_failure_policy envInfFail rAccepted fiW fiW netFailMsg rfl rfl
    (by decide) (by decide) rfl rfl rfl
  exact ⟨rfl, h.1.1, h.2.1⟩

/-- Counterexample to Claim C8: in server.js the Gemini client is
constructed at boot with whatever the environment holds and analyzeImage
has no credential guard — with GEMINI_API_KEY absent the network call to
the inference backend is still issued for an accepted request. -/
theorem c8_counterexample :
    envNoKey.geminiApiKey = none ∧
    (handlerServer envNoKey rAccepted).trace.countP isGeminiCall = 1 := by
  refine ⟨rfl, by decide⟩

/-- Claim C8 as amended: only the part_002 variant guards the
credential — there, when GEMINI_API_KEY is absent, analyzeImage throws
"GEMINI_API_KEY missing" before any network call to the inference
backend, the response is a 500 carrying that message, and the temp
files are still cleaned up; server.js, part_000 and part_001 have no
such guard and attempt the inference network call regardless. -/
theorem c8_missing_key_fail_fast (env : Env) (r : RawReq) (fi fs : RawFile)
    (hi : r.image = some fi) (hs : r.selfie = some fs)
    (hfi2 : fileOk part000Cfg fi = true) (hfs2 : fileOk part000Cfg fs = true)
    (hc : r.consent = some consentTrue) (hk : env.geminiApiKey = none) :
    (handlerPart002 env r).response =
      some { status := 500, body := Body.errBody geminiKeyMissingMsg } ∧
    (handlerPart002 env r).trace.countP isGeminiCall = 0 ∧
    part002Cfg.imgPath ∉ (handlerPart002 env r).disk ∧
    part002Cfg.selPath ∉ (handlerPart002 env r).disk := by
  unfold handlerPart002
  rw [runMulter_accepted part002Cfg r fi fs hi hs
    ((fileOk_part002_eq fi).trans hfi2) ((fileOk_part002_eq fs).trans hfs2), hc]
  cases hP : env.nodeEnvIsProduction <;> cases hT : env.telegramBotToken <;>
    cases hC : env.telegramChatId <;> cases hM : env.msgFetchFails <;>
    simp [sendTelegramMessageGuarded, analyzeImageLazyInit, hk, hP, hT, hC, hM,
      isGeminiCall, unlinkIfExists, part002Cfg]

/-- Witness for the amended C8 at the concrete keyless environment. -/
theorem c8_missing_key_fail_fast_witness :
    envNoKey.geminiApiKey = none ∧
    (handlerPart002 envNoKey rAccepted).response =
      some { status := 500, body := Body.errBody geminiKeyMissingMsg } ∧
    (handlerPart002 envNoKey rAccepted).trace.countP isGeminiCall = 0 := by
  have h := c8_missing_key_fail_fast envNoKey rAccepted fiW fiW rfl rfl
    (by decide) (by decide) rfl rfl
  exact ⟨rfl, h.1, h.2.1⟩

/-- String append is associative (used to exhibit substrings of the
audit message). -/
lemma strAppendAssoc (a b c : String) : a ++ b ++ c = a ++ (b ++ c) := by
  cases a; cases b; cases c
  exact congrArg String.mk (List.append_assoc _ _ _)

/-- Claim C9: for every accepted request handled by part_001, the first
outbound call is the audit text message, built from the location hint,
the client ip (first x-forwarded-for entry, else the socket remote
address — the definition of `clientIp`), the device hint, the current
timestamp and the user prompt; in particular the ip and the timestamp
occur verbatim inside the sent text. -/
theorem c9_audit_message_ip_timestamp (env : Env) (r : RawReq) (fi fs : RawFile)
    (hi : r.image = some fi) (hs : r.selfie = some fs)
    (hc : r.consent = some consentTrue) :
    ∃ rest : List Call,
      (handlerPart001 env r).trace =
        Call.telegramMessage (msgTextPart001 (locationOf r) (clientIp r) (deviceOf r)
          env.now (promptOf r)) :: rest ∧
      (∃ p q, msgTextPart001 (locationOf r) (clientIp r) (deviceOf r) env.now (promptOf r) =
        p ++ clientIp r ++ q) ∧
      (∃ p q, msgTextPart001 (locationOf r) (clientIp r) (deviceOf r) env.now (promptOf r) =
        p ++ env.now ++ q) := by
  have hB : ∃ p q, msgTextPart001 (locationOf r) (clientIp r) (deviceOf r) env.now
      (promptOf r) = p ++ clientIp r ++ q := by
    refine ⟨p001Seg0 ++ locationOf r ++ p001Seg1,
      p001Seg2 ++ deviceOf r ++ p001Seg3 ++ env.now ++ p001Seg4 ++ promptOf r, ?_⟩
    unfold msgTextPart001
    simp [strAppendAssoc]
  have hN : ∃ p q, msgTextPart001 (locationOf r) (clientIp r) (deviceOf r) env.now
      (promptOf r) = p ++ env.now ++ q := by
    refine ⟨p001Seg0 ++ locationOf r ++ p001Seg1 ++ clientIp r ++ p001Seg2 ++ deviceOf r ++
      p001Seg3, p001Seg4 ++ promptOf r, ?_⟩
    unfold msgTextPart001
    simp [strAppendAssoc]
  have hT : ∃ rest : List Call,
      (handlerPart001 env r).trace =
        Call.telegramMessage (msgTextPart001 (locationOf r) (clientIp r) (deviceOf r)
          env.now (promptOf r)) :: rest := by
    unfold handlerPart001
    rw [runMulter_accepted part001Cfg r fi fs hi hs (fileOk_part001 fi) (fileOk_part001 fs), hc]
    cases hM : env.msgFetchFails <;> cases hF : env.photoFetchFails <;>
      cases hR : env.readFileFails <;> cases hI : env.inference <;>
      simp [sendTelegramMessageUngated, sendTelegramPhotoUngated, analyzeImageRaw,
        hM, hF, hR, hI]
  obtain ⟨rest, hrest⟩ := hT
  exact ⟨rest, hrest, hB, hN⟩

/-- Witness for C9 at the concrete accepted request. -/
theorem c9_audit_message_ip_timestamp_witness :
    rAccepted.consent = some consentTrue ∧
    ∃ rest : List Call,
      (handlerPart001 envBase rAccepted).trace =
        Call.telegramMessage (msgTextPart001 (locationOf rAccepted) (clientIp rAccepted)
          (deviceOf rAccepted) envBase.now (promptOf rAccepted)) :: rest := by
  obtain ⟨rest, h1, -, -⟩ :=
    c9_audit_message_ip_timestamp envBase rAccepted fiW fiW rfl rfl rfl
  exact ⟨rfl, rest, h1⟩

/-- Claim C10: in part_002 every 500 from /analyze carries the raw
message of the exception that reached the catch — "GEMINI_API_KEY
missing" when the key is absent, "AI analysis failed" when the Gemini
call failed, the readFileSync message when the read threw — while
server.js and part_000 answer the same situations with the fixed string
"Server error". -/
theorem c10_raw_error_message_part002 (env : Env) (r : RawReq) (fi fs : RawFile)
    (hi : r.image = some fi) (hs : r.selfie = some fs)
    (hfi2 : fileOk part000Cfg fi = true) (hfs2 : fileOk part000Cfg fs = true)
    (hfi5 : fileOk serverCfg fi = true) (hfs5 : fileOk serverCfg fs = true)
    (hc : r.consent = some consentTrue) :
    (env.geminiApiKey = none →
      (handlerPart002 env r).response =
        some { status := 500, body := Body.errBody geminiKeyMissingMsg }) ∧
    (∀ k em, env.geminiApiKey = some k → env.readFileFails = false →
      env.inference = Except.error em →
      (handlerPart002 env r).response =
        some { status := 500, body := Body.errBody aiAnalysisFailedMsg } ∧
      (handlerPart000 env r).response =
        some { status := 500, body := Body.errBody serverErrorMsg } ∧
      (handlerServer env r).response =
        some { status := 500, body := Body.errBody serverErrorMsg }) ∧
    (∀ k, env.geminiApiKey = some k → env.readFileFails = true →
      (handlerPart002 env r).response =
        some { status := 500, body := Body.errBody readErrMsg }) := by
  refine ⟨?_, ?_, ?_⟩
  · intro hk
    unfold handlerPart002
    rw [runMulter_accepted part002Cfg r fi fs hi hs
      ((fileOk_part002_eq fi).trans hfi2) ((fileOk_part002_eq fs).trans hfs2), hc]
    simp [analyzeImageLazyInit, hk]
  · intro k em hk hrd hinf
    refine ⟨?_, ?_, ?_⟩
    · unfold handlerPart002
      rw [runMulter_accepted part002Cfg r fi fs hi hs
        ((fileOk_part002_eq fi).trans hfi2) ((fileOk_part002_eq fs).trans hfs2), hc]
      simp [analyzeImageLazyInit, hk, hrd, hinf]
    · unfold handlerPart000
      rw [runMulter_accepted part000Cfg r fi fs hi hs hfi2 hfs2, hc]
      simp [analyzeImageCaught, hrd, hinf]
    · unfold handlerServer
      rw [runMulter_accepted serverCfg r fi fs hi hs hfi5 hfs5, hc]
      simp [analyzeImageRaw, hrd, hinf]
  · intro k hk hrd
    unfold handlerPart002
    rw [runMulter_accepted part002Cfg r fi fs hi hs
      ((fileOk_part002_eq fi).trans hfi2) ((fileOk_part002_eq fs).trans hfs2), hc]
    simp [analyzeImageLazyInit, hk, hrd]

/-- Witness for C10 at the concrete keyless environment. -/
theorem c10_raw_error_message_part002_witness :
    envNoKey.geminiApiKey = none ∧
    (handlerPart002 envNoKey rAccepted).response =
      some { status := 500, body := Body.errBody geminiKeyMissingMsg } := by
  have h := c10_raw_error_message_part002 envNoKey rAccepted fiW fiW rfl rfl
    (by decide) (by decide) (by decide) (by decide) rfl
  exact ⟨rfl, h.1 rfl⟩

end Scan4Care
